import Mathlib

set_option maxRecDepth 100000

/-
Verification development for the incorp-calc tax calculator (BC 2025).

The program is embedded shallowly over the rationals: every currency amount
is a rational number, bracket tables are lists of pairs, an unbounded upper
bracket bound (POSITIVE_INFINITY in the source) is represented by the value
none of an optional bound, and the bounded-iteration binary-search solvers
are embedded as fuel-indexed recursions with exactly the iteration counts of
the source.
-/

namespace IncorpCalc

/-- A tax bracket as in the source tables: an upper bound (none represents an
unbounded bound, POSITIVE_INFINITY in the source) together with the marginal
rate for the band below that bound. -/
abbrev TaxBracket := Option ℚ × ℚ

/-- The value of min taxable cap used by progressiveTax, where an unbounded
cap leaves the taxable amount unchanged. -/
def capMin (t : ℚ) : Option ℚ → ℚ
  | none => t
  | some c => min t c

/-- The comparison taxable LE cap used by the early break of progressiveTax;
every amount is below an unbounded cap. -/
def capLeB (t : ℚ) : Option ℚ → Bool
  | none => true
  | some c => decide (t ≤ c)

/-- Loop of progressiveTax from calcUnincorporated.ts (the identical helper is
repeated in the two scenario components): prev carries the previous ceiling,
the band amount is clamped at zero, and the loop breaks once a band is empty
or the taxable amount is below the current cap. -/
def ptAux (taxable : ℚ) : ℚ → List TaxBracket → ℚ
  | _, [] => 0
  | prev, (cap, rate) :: rest =>
    if max 0 (capMin taxable cap - prev) ≤ 0 then 0
    else
      max 0 (capMin taxable cap - prev) * rate +
        (if capLeB taxable cap then 0 else ptAux taxable (cap.getD 0) rest)

/-- progressiveTax of the source: fold of ptAux starting from previous
ceiling 0. -/
def progressiveTax (taxable : ℚ) (brackets : List TaxBracket) : ℚ :=
  ptAux taxable 0 brackets

/-- Modelled from the spec: the full bracket sum of section 4.1, namely the
sum over every bracket of max(0, min(taxable, cap) - previousCeiling) x rate
with no early break.  This is the spec-side definition compared against the
source-side progressiveTax. -/
def ssAux (taxable : ℚ) : ℚ → List TaxBracket → ℚ
  | _, [] => 0
  | prev, (cap, rate) :: rest =>
    max 0 (capMin taxable cap - prev) * rate + ssAux taxable (cap.getD prev) rest

/-- Modelled from the spec: total of the full bracket sum from previous
ceiling 0. -/
def specSum (taxable : ℚ) (brackets : List TaxBracket) : ℚ :=
  ssAux taxable 0 brackets

/-- Validity of a bracket table per the data model of the spec: ceilings are
strictly increasing starting above the running previous ceiling, and exactly
the last entry is unbounded. -/
def wfFrom : ℚ → List TaxBracket → Bool
  | _, [] => false
  | _, (none, _) :: rest => rest.isEmpty
  | prev, (some c, _) :: rest => decide (prev < c) && wfFrom c rest

/-- All rates of a table lie in the closed interval from lo to hi.  The data
model constrains marginal rates to be fractions, hence nonnegative. -/
def ratesIn (lo hi : ℚ) : List TaxBracket → Bool
  | [] => true
  | (_, r) :: rest => decide (lo ≤ r) && decide (r ≤ hi) && ratesIn lo hi rest

lemma max0_mono {a b : ℚ} (h : a ≤ b) : max 0 a ≤ max 0 b :=
  max_le_max le_rfl h

lemma max0_sub_le {a b : ℚ} (h : a ≤ b) : max 0 b - max 0 a ≤ b - a := by
  rcases le_total a 0 with ha | ha <;> rcases le_total b 0 with hb | hb <;>
    simp [max_def] <;> split_ifs <;> linarith

lemma max0_nonneg (a : ℚ) : 0 ≤ max 0 a := le_max_left 0 a

lemma capMin_mono {a b : ℚ} (cap : Option ℚ) (h : a ≤ b) :
    capMin a cap ≤ capMin b cap := by
  cases cap with
  | none => exact h
  | some c => exact min_le_min h le_rfl

lemma capMin_le (t : ℚ) (cap : Option ℚ) : capMin t cap ≤ t := by
  cases cap with
  | none => exact le_rfl
  | some c => exact min_le_left t c

/-- One band splits the clamped amount above prev at the ceiling c. -/
lemma band_split {prev c : ℚ} (x : ℚ) (h : prev < c) :
    max 0 (min x c - prev) + max 0 (x - c) = max 0 (x - prev) := by
  rcases le_total x c with hxc | hxc <;> rcases le_total x prev with hxp | hxp <;>
    simp [max_def, min_def] <;> split_ifs <;> linarith

/-- The full bracket sum vanishes when the taxable amount is below the running
previous ceiling of a valid table. -/
lemma ssAux_zero : ∀ (brs : List TaxBracket) (prev t : ℚ),
    t ≤ prev → wfFrom prev brs = true → ssAux t prev brs = 0 := by
  intro brs
  induction brs with
  | nil => intro prev t _ _; rfl
  | cons hd rest ih =>
    rcases hd with ⟨cap, r⟩
    intro prev t ht hwf
    cases cap with
    | none =>
      have hrest : rest = [] := by
        simpa [wfFrom, List.isEmpty_iff] using hwf
      subst hrest
      have h1 : max 0 (capMin t none - prev) = 0 := by
        have : capMin t none - prev ≤ 0 := by simp [capMin]; linarith
        exact max_eq_left this
      simp [ssAux, h1]
    | some c =>
      have hwf' : prev < c ∧ wfFrom c rest = true := by
        simpa [wfFrom] using hwf
      have h1 : max 0 (capMin t (some c) - prev) = 0 := by
        have hm : min t c ≤ t := min_le_left t c
        have : capMin t (some c) - prev ≤ 0 := by
          simp only [capMin]; linarith
        exact max_eq_left this
      have h2 : ssAux t c rest = 0 := ih c t (by linarith [hwf'.1]) hwf'.2
      simp [ssAux, h1, h2]

/-- On valid tables the early-break loop of the source computes exactly the
full bracket sum of the spec, for every taxable amount. -/
lemma ptAux_eq_ssAux : ∀ (brs : List TaxBracket) (prev t : ℚ),
    wfFrom prev brs = true → ptAux t prev brs = ssAux t prev brs := by
  intro brs
  induction brs with
  | nil => intro prev t _; rfl
  | cons hd rest ih =>
    rcases hd with ⟨cap, r⟩
    intro prev t hwf
    cases cap with
    | none =>
      have hrest : rest = [] := by
        simpa [wfFrom, List.isEmpty_iff] using hwf
      subst hrest
      by_cases hamt : max 0 (capMin t none - prev) ≤ 0
      · have h0 : max 0 (capMin t none - prev) = 0 :=
          le_antisymm hamt (max0_nonneg _)
        simp [ptAux, ssAux, hamt, h0]
      · simp [ptAux, ssAux, hamt, capLeB]
    | some c =>
      have hwf' : prev < c ∧ wfFrom c rest = true := by
        simpa [wfFrom] using hwf
      by_cases hamt : max 0 (capMin t (some c) - prev) ≤ 0
      · have h0 : max 0 (capMin t (some c) - prev) = 0 :=
          le_antisymm hamt (max0_nonneg _)
        have htp : t ≤ prev := by
          by_contra htp
          push_neg at htp
          have hminpos : 0 < min t c - prev := by
            have : prev < min t c := lt_min htp hwf'.1
            linarith
          have : 0 < max 0 (capMin t (some c) - prev) := by
            simp only [capMin]
            exact lt_max_of_lt_right hminpos
          linarith
        have hz : ssAux t c rest = 0 :=
          ssAux_zero rest c t (by linarith [hwf'.1]) hwf'.2
        simp [ptAux, ssAux, hamt, h0, hz]
      · by_cases hle : t ≤ c
        · have hz : ssAux t c rest = 0 := ssAux_zero rest c t hle hwf'.2
          simp [ptAux, ssAux, hamt, capLeB, hle, hz]
        · have hrec : ptAux t c rest = ssAux t c rest := ih c t hwf'.2
          simp [ptAux, ssAux, hamt, capLeB, hle, hrec]

/-- Upper Lipschitz bound of the full bracket sum: between two taxable
amounts it grows at most by the top rate times the growth of the clamped
amount above the running previous ceiling. -/
lemma ssAux_sub_le : ∀ (brs : List TaxBracket) (prev a b lo hi : ℚ),
    wfFrom prev brs = true → ratesIn lo hi brs = true → a ≤ b →
    ssAux b prev brs - ssAux a prev brs ≤
      hi * (max 0 (b - prev) - max 0 (a - prev)) := by
  intro brs
  induction brs with
  | nil => intro prev a b lo hi hwf _ _; cases hwf
  | cons hd rest ih =>
    rcases hd with ⟨cap, r⟩
    intro prev a b lo hi hwf hr hab
    have hr' : lo ≤ r ∧ r ≤ hi ∧ ratesIn lo hi rest = true := by
      simpa [ratesIn, and_assoc] using hr
    cases cap with
    | none =>
      have hrest : rest = [] := by
        simpa [wfFrom, List.isEmpty_iff] using hwf
      subst hrest
      have hmono : max 0 (a - prev) ≤ max 0 (b - prev) :=
        max0_mono (by linarith)
      have : r * (max 0 (b - prev) - max 0 (a - prev)) ≤
          hi * (max 0 (b - prev) - max 0 (a - prev)) :=
        mul_le_mul_of_nonneg_right hr'.2.1 (by linarith)
      simp only [ssAux, capMin]
      ring_nf
      ring_nf at this
      linarith
    | some c =>
      have hwf' : prev < c ∧ wfFrom c rest = true := by
        simpa [wfFrom] using hwf
      have hband_a := band_split a hwf'.1
      have hband_b := band_split b hwf'.1
      have hclampmono : max 0 (min a c - prev) ≤ max 0 (min b c - prev) :=
        max0_mono (by have := min_le_min hab (le_refl c); linarith)
      have hrest := ih c a b lo hi hwf'.2 hr'.2.2 hab
      have hterm : r * (max 0 (min b c - prev) - max 0 (min a c - prev)) ≤
          hi * (max 0 (min b c - prev) - max 0 (min a c - prev)) :=
        mul_le_mul_of_nonneg_right hr'.2.1 (by linarith)
      simp only [ssAux, capMin, Option.getD]
      rw [← hband_a, ← hband_b]
      ring_nf
      ring_nf at hrest hterm
      linarith

/-- Lower Lipschitz bound of the full bracket sum: it grows at least by the
bottom rate times the growth of the clamped amount above the running
previous ceiling. -/
lemma ssAux_sub_ge : ∀ (brs : List TaxBracket) (prev a b lo hi : ℚ),
    wfFrom prev brs = true → ratesIn lo hi brs = true → 0 ≤ lo → a ≤ b →
    lo * (max 0 (b - prev) - max 0 (a - prev)) ≤
      ssAux b prev brs - ssAux a prev brs := by
  intro brs
  induction brs with
  | nil => intro prev a b lo hi hwf _ _ _; cases hwf
  | cons hd rest ih =>
    rcases hd with ⟨cap, r⟩
    intro prev a b lo hi hwf hr hlo hab
    have hr' : lo ≤ r ∧ r ≤ hi ∧ ratesIn lo hi rest = true := by
      simpa [ratesIn, and_assoc] using hr
    cases cap with
    | none =>
      have hrest : rest = [] := by
        simpa [wfFrom, List.isEmpty_iff] using hwf
      subst hrest
      have hmono : max 0 (a - prev) ≤ max 0 (b - prev) :=
        max0_mono (by linarith)
      have : lo * (max 0 (b - prev) - max 0 (a - prev)) ≤
          r * (max 0 (b - prev) - max 0 (a - prev)) :=
        mul_le_mul_of_nonneg_right hr'.1 (by linarith)
      simp only [ssAux, capMin]
      ring_nf
      ring_nf at this
      linarith
    | some c =>
      have hwf' : prev < c ∧ wfFrom c rest = true := by
        simpa [wfFrom] using hwf
      have hband_a := band_split a hwf'.1
      have hband_b := band_split b hwf'.1
      have hclampmono : max 0 (min a c - prev) ≤ max 0 (min b c - prev) :=
        max0_mono (by have := min_le_min hab (le_refl c); linarith)
      have hrest := ih c a b lo hi hwf'.2 hr'.2.2 hlo hab
      have hterm : lo * (max 0 (min b c - prev) - max 0 (min a c - prev)) ≤
          r * (max 0 (min b c - prev) - max 0 (min a c - prev)) :=
        mul_le_mul_of_nonneg_right hr'.1 (by linarith)
      simp only [ssAux, capMin, Option.getD]
      rw [← hband_a, ← hband_b]
      ring_nf
      ring_nf at hrest hterm
      linarith

/-- progressiveTax agrees with the full bracket sum on valid tables. -/
lemma progressiveTax_eq_specSum {brs : List TaxBracket} (t : ℚ)
    (hwf : wfFrom 0 brs = true) : progressiveTax t brs = specSum t brs :=
  ptAux_eq_ssAux brs 0 t hwf

/-- progressiveTax at zero taxable income is zero for every table. -/
lemma progressiveTax_zero (brs : List TaxBracket) : progressiveTax 0 brs = 0 := by
  cases brs with
  | nil => rfl
  | cons hd rest =>
    rcases hd with ⟨cap, r⟩
    have hc : max 0 (capMin 0 cap - 0) ≤ 0 := by
      have h := capMin_le 0 cap
      exact max_le le_rfl (by linarith)
    show ptAux 0 0 ((cap, r) :: rest) = 0
    simp only [ptAux]
    rw [if_pos hc]

lemma progressiveTax_sub_le {brs : List TaxBracket} {a b lo hi : ℚ}
    (hwf : wfFrom 0 brs = true) (hr : ratesIn lo hi brs = true)
    (hhi : 0 ≤ hi) (hab : a ≤ b) :
    progressiveTax b brs - progressiveTax a brs ≤ hi * (b - a) := by
  have h := ssAux_sub_le brs 0 a b lo hi hwf hr hab
  have h2 : max 0 (b - 0) - max 0 (a - 0) ≤ b - a := by
    have := max0_sub_le (a := a - 0) (b := b - 0) (by linarith)
    linarith
  rw [progressiveTax_eq_specSum a hwf, progressiveTax_eq_specSum b hwf]
  have h3 : hi * (max 0 (b - 0) - max 0 (a - 0)) ≤ hi * (b - a) :=
    mul_le_mul_of_nonneg_left h2 hhi
  simp only [specSum]
  linarith

lemma progressiveTax_sub_ge {brs : List TaxBracket} {a b lo hi : ℚ}
    (hwf : wfFrom 0 brs = true) (hr : ratesIn lo hi brs = true)
    (hlo : 0 ≤ lo) (ha : 0 ≤ a) (hab : a ≤ b) :
    lo * (b - a) ≤ progressiveTax b brs - progressiveTax a brs := by
  have h := ssAux_sub_ge brs 0 a b lo hi hwf hr hlo hab
  have h2 : max 0 (b - 0) - max 0 (a - 0) = b - a := by
    rw [max_eq_right (by linarith), max_eq_right (by linarith)]
    ring
  rw [progressiveTax_eq_specSum a hwf, progressiveTax_eq_specSum b hwf]
  rw [h2] at h
  simp only [specSum]
  linarith

lemma progressiveTax_mono {brs : List TaxBracket} {a b hi : ℚ}
    (hwf : wfFrom 0 brs = true) (hr : ratesIn 0 hi brs = true)
    (hab : a ≤ b) :
    progressiveTax a brs ≤ progressiveTax b brs := by
  have h := ssAux_sub_ge brs 0 a b 0 hi hwf hr le_rfl hab
  rw [progressiveTax_eq_specSum a hwf, progressiveTax_eq_specSum b hwf]
  simp only [specSum]
  linarith

lemma progressiveTax_nonneg {brs : List TaxBracket} {hi : ℚ} (t : ℚ)
    (hwf : wfFrom 0 brs = true) (hr : ratesIn 0 hi brs = true) :
    0 ≤ progressiveTax t brs := by
  rcases le_total t 0 with ht | ht
  · have h := progressiveTax_mono hwf hr ht
    rw [progressiveTax_zero] at h
    have h0 : progressiveTax t brs = 0 := by
      rw [progressiveTax_eq_specSum t hwf]
      exact ssAux_zero brs 0 t ht hwf
    rw [h0]
  · have h := progressiveTax_mono hwf hr ht
    rw [progressiveTax_zero] at h
    exact h

lemma progressiveTax_le_mul {brs : List TaxBracket} {t lo hi : ℚ}
    (hwf : wfFrom 0 brs = true) (hr : ratesIn lo hi brs = true)
    (hhi : 0 ≤ hi) (ht : 0 ≤ t) :
    progressiveTax t brs ≤ hi * t := by
  have h := progressiveTax_sub_le hwf hr hhi ht
  rw [progressiveTax_zero] at h
  linarith

/-- Federal brackets 2025 as listed identically in taxTables_2025_BC.ts and in
the two scenario components. -/
def FED_BRACKETS : List TaxBracket :=
  [(some 55867, 0.15), (some 111733, 0.205), (some 173205, 0.26),
   (some 246752, 0.29), (none, 0.33)]

/-- BC brackets 2025 as listed identically in taxTables_2025_BC.ts and in the
two scenario components. -/
def BC_BRACKETS : List TaxBracket :=
  [(some 47937, 0.0506), (some 95875, 0.0770), (some 110076, 0.1050),
   (some 133664, 0.1229), (some 181232, 0.1470), (some 252752, 0.1680),
   (none, 0.2050)]

lemma fed_wf : wfFrom 0 FED_BRACKETS = true := by with_unfolding_all rfl

lemma bc_wf : wfFrom 0 BC_BRACKETS = true := by with_unfolding_all rfl

lemma fed_rates : ratesIn 0.15 0.33 FED_BRACKETS = true := by
  with_unfolding_all rfl

lemma bc_rates : ratesIn 0.0506 0.2050 BC_BRACKETS = true := by
  with_unfolding_all rfl

lemma fed_rates0 : ratesIn 0 0.33 FED_BRACKETS = true := by
  with_unfolding_all rfl

lemma bc_rates0 : ratesIn 0 0.2050 BC_BRACKETS = true := by
  with_unfolding_all rfl

namespace Engine

/-- CPP constants of the engine table taxTables_2025_BC.ts: combined
(employee plus employer) self-employed rates, tier-1 ceiling YMPE, tier-2
ceiling YAMPE and the derived maximal tier-1 base MPE. -/
def CPP_BASIC_EXEMPT : ℚ := 3500

def CPP_YMPE : ℚ := 71300

def CPP_YAMPE : ℚ := 76400

def CPP_MPE : ℚ := 71300 - 3500

def CPP_RATE_T1 : ℚ := 0.119

def CPP_RATE_T2 : ℚ := 0.08

def RRSP_RATE : ℚ := 0.18

def RRSP_MAX_2025 : ℚ := 32490

/-- calcCPP of calcUnincorporated.ts: combined self-employed contribution on
the two tiers. -/
def calcCPP (gross : ℚ) : ℚ :=
  let base1 := min (max gross 0) CPP_YMPE - CPP_BASIC_EXEMPT
  let cpp1 := max 0 (min base1 CPP_MPE) * CPP_RATE_T1
  let base2 := max 0 (min gross CPP_YAMPE - CPP_YMPE)
  let cpp2 := base2 * CPP_RATE_T2
  cpp1 + cpp2

/-- Output record of the engine (types.ts): every scenario field of the
unified scenario output. -/
structure Output where
  grossSalary : ℚ
  eligibleDividends : ℚ
  nonEligibleDividends : ℚ
  corporateTaxes : ℚ
  corporateCPP : ℚ
  personalTaxes : ℚ
  totalTaxes : ℚ
  totalCPP : ℚ
  personalCPP : ℚ
  corporateCash : ℚ
  personalCash : ℚ
  totalCash : ℚ
  totalTaxRate : ℚ
  rrspRoom : ℚ
  federalTax : ℚ
  provincialTax : ℚ
  taxableIncome : ℚ

/-- calculateUnincorporated of calcUnincorporated.ts, on the businessIncome
field of its input record (the only field it reads). -/
def calculateUnincorporated (businessIncome : ℚ) : Output :=
  let grossSalary := businessIncome
  let totalCPP := calcCPP grossSalary
  let corporateCPP := totalCPP / 2
  let personalCPP := totalCPP / 2
  let taxableIncome := max 0 (grossSalary - corporateCPP)
  let federalTax := progressiveTax taxableIncome FED_BRACKETS
  let provincialTax := progressiveTax taxableIncome BC_BRACKETS
  let personalTaxes := federalTax + provincialTax
  let corporateTaxes := 0
  let totalTaxes := personalTaxes + corporateTaxes
  let corporateCash := 0
  let personalCash := grossSalary - personalTaxes - personalCPP
  let totalCash := personalCash
  let totalTaxRate := if grossSalary > 0 then personalTaxes / grossSalary else 0
  let rrspRoom := min RRSP_MAX_2025 (grossSalary * RRSP_RATE)
  { grossSalary := grossSalary
    eligibleDividends := 0
    nonEligibleDividends := 0
    corporateTaxes := corporateTaxes
    corporateCPP := corporateCPP
    personalTaxes := personalTaxes
    totalTaxes := totalTaxes
    totalCPP := totalCPP
    personalCPP := personalCPP
    corporateCash := corporateCash
    personalCash := personalCash
    totalCash := totalCash
    totalTaxRate := totalTaxRate
    rrspRoom := rrspRoom
    federalTax := federalTax
    provincialTax := provincialTax
    taxableIncome := taxableIncome }

end Engine

namespace CppHelpers

/-- CPP_2025 constants of cppHelpers.ts: per-side rates and the 2025
ceilings with YAMPE 81200. -/
def BASIC_EXEMPTION : ℚ := 3500

def YMPE : ℚ := 71300

def YAMPE : ℚ := 81200

def T1_BASE_RATE : ℚ := 0.0495

def T1_ENH_RATE : ℚ := 0.0100

def T2_RATE : ℚ := 0.0400

/-- splitCPPBases of cppHelpers.ts. -/
def splitCPPBases (gross : ℚ) : ℚ × ℚ :=
  let s := max 0 gross
  let t1Base := max 0 (min s YMPE - BASIC_EXEMPTION)
  let t2Base := max 0 (min s YAMPE - YMPE)
  (t1Base, t2Base)

/-- SelfEmployedCPPResult of cppHelpers.ts with the nested credits record
flattened into the field creditBaseEE. -/
structure SelfEmployedCPPResult where
  personalPaid : ℚ
  creditBaseEE : ℚ
  personalDeduction : ℚ
  t1Base : ℚ
  t2Base : ℚ
  ee_t1_base : ℚ
  ee_t1_enh : ℚ
  ee_t2 : ℚ
  er_t1_base : ℚ
  er_t1_enh : ℚ
  er_t2 : ℚ

/-- cppTaxTreatmentForUnincorporated of cppHelpers.ts: the CRA-correct
self-employed treatment in which the individual pays both sides in cash,
only the employee base portion is creditable, and everything else is
deductible. -/
def cppTaxTreatmentForUnincorporated (gross : ℚ) : SelfEmployedCPPResult :=
  let bases := splitCPPBases gross
  let t1Base := bases.1
  let t2Base := bases.2
  let ee_t1_base := t1Base * T1_BASE_RATE
  let ee_t1_enh := t1Base * T1_ENH_RATE
  let ee_t2 := t2Base * T2_RATE
  let er_t1_base := t1Base * T1_BASE_RATE
  let er_t1_enh := t1Base * T1_ENH_RATE
  let er_t2 := t2Base * T2_RATE
  { personalPaid := ee_t1_base + ee_t1_enh + ee_t2 + er_t1_base + er_t1_enh + er_t2
    creditBaseEE := ee_t1_base
    personalDeduction := er_t1_base + ee_t1_enh + er_t1_enh + ee_t2 + er_t2
    t1Base := t1Base
    t2Base := t2Base
    ee_t1_base := ee_t1_base
    ee_t1_enh := ee_t1_enh
    ee_t2 := ee_t2
    er_t1_base := er_t1_base
    er_t1_enh := er_t1_enh
    er_t2 := er_t2 }

end CppHelpers

/-- SBD_LIMIT_BC of corporateTax_BC.ts. -/
def SBD_LIMIT_BC : ℚ := 500000

/-- RATES_2025.sbd_combined of corporateTax_BC.ts. -/
def RATE_SBD_COMBINED : ℚ := 0.11

/-- RATES_2025.gen_combined of corporateTax_BC.ts. -/
def RATE_GEN_COMBINED : ℚ := 0.27

/-- CorpTaxResult of corporateTax_BC.ts. -/
structure CorpTaxResult where
  profitBeforeTax : ℚ
  sbdPortion : ℚ
  genPortion : ℚ
  taxOnSBD : ℚ
  taxOnGen : ℚ
  corporateTaxes : ℚ
  effectiveRate : ℚ

/-- computeCorporateTaxesBC of corporateTax_BC.ts: clamp the profit at zero,
split it at the small-business limit, apply the two combined rates, and
report the effective rate with the zero-profit case special-cased to 0. -/
def computeCorporateTaxesBC (profitBeforeTax : ℚ) : CorpTaxResult :=
  let p := max 0 profitBeforeTax
  let sbdPortion := min p SBD_LIMIT_BC
  let genPortion := max 0 (p - SBD_LIMIT_BC)
  let taxOnSBD := sbdPortion * RATE_SBD_COMBINED
  let taxOnGen := genPortion * RATE_GEN_COMBINED
  let corporateTaxes := taxOnSBD + taxOnGen
  let effectiveRate := if p > 0 then corporateTaxes / p else 0
  { profitBeforeTax := p
    sbdPortion := sbdPortion
    genPortion := genPortion
    taxOnSBD := taxOnSBD
    taxOnGen := taxOnGen
    corporateTaxes := corporateTaxes
    effectiveRate := effectiveRate }

/-- Basic personal amounts 2025 as defined identically in the salary and
dividend scenario components. -/
def FED_BPA : ℚ := 16103

def FED_BPA_RATE : ℚ := 0.15

def BC_BPA : ℚ := 12580

def BC_BPA_RATE : ℚ := 0.0506

namespace Salary

def CPP_YMPE : ℚ := 71300

def CPP_YAMPE : ℚ := 81200

def CPP_T1_BASE_RATE : ℚ := 0.0495

def CPP_T1_ENH_RATE : ℚ := 0.0100

def CPP_T2_RATE : ℚ := 0.0400

def CPP_BASIC_EXEMPTION : ℚ := 3500

def RRSP_MAX_2025 : ℚ := 32490

def RRSP_PCT : ℚ := 0.18

/-- applyCredits of the salary component: combine non-refundable credits and
apply once, floored at zero. -/
def applyCredits (grossTax credits : ℚ) : ℚ :=
  max 0 (grossTax - max 0 credits)

/-- splitCPPBases of the salary component. -/
def splitCPPBases (gross : ℚ) : ℚ × ℚ :=
  let s := max 0 gross
  let t1Base := max 0 (min s CPP_YMPE - CPP_BASIC_EXEMPTION)
  let t2Base := max 0 (min s CPP_YAMPE - CPP_YMPE)
  (t1Base, t2Base)

/-- Record returned by cppForEmployeeSalary of the salary component. -/
structure CppParts where
  employeePaid : ℚ
  employerPaid : ℚ
  personalDeduction : ℚ
  corporateDeduction : ℚ
  extraFedCredit : ℚ
  extraBcCredit : ℚ
  ee_t1_base : ℚ

/-- cppForEmployeeSalary of the salary component: employee and employer CPP
cash, the personally deductible and corporately deductible buckets, and the
credit amounts on the employee base portion. -/
def cppForEmployeeSalary (gross : ℚ) : CppParts :=
  let bases := splitCPPBases gross
  let t1Base := bases.1
  let t2Base := bases.2
  let ee_t1_base := t1Base * CPP_T1_BASE_RATE
  let ee_t1_enh := t1Base * CPP_T1_ENH_RATE
  let ee_t2 := t2Base * CPP_T2_RATE
  let er_t1_base := t1Base * CPP_T1_BASE_RATE
  let er_t1_enh := t1Base * CPP_T1_ENH_RATE
  let er_t2 := t2Base * CPP_T2_RATE
  { employeePaid := ee_t1_base + ee_t1_enh + ee_t2
    employerPaid := er_t1_base + er_t1_enh + er_t2
    personalDeduction := ee_t1_enh + ee_t2
    corporateDeduction := er_t1_base + er_t1_enh + er_t2
    extraFedCredit := ee_t1_base * FED_BPA_RATE
    extraBcCredit := ee_t1_base * BC_BPA_RATE
    ee_t1_base := ee_t1_base }

/-- Record returned by netFromGross of the salary component. -/
structure NetResult where
  net : ℚ
  personalTaxes : ℚ
  personalCPP : ℚ
  federalTax : ℚ
  provincialTax : ℚ
  taxableIncome : ℚ
  cpp : CppParts

/-- netFromGross of the salary component: net of tax and employee CPP for a
given gross salary, with the CRA treatment of the CPP buckets and the
combined BPA plus CPP-base credits. -/
def netFromGross (grossSalary : ℚ) : NetResult :=
  let cpp := cppForEmployeeSalary grossSalary
  let taxableIncome := max 0 (grossSalary - cpp.personalDeduction)
  let fedGross := progressiveTax taxableIncome FED_BRACKETS
  let bcGross := progressiveTax taxableIncome BC_BRACKETS
  let fedCredits := FED_BPA * FED_BPA_RATE + cpp.extraFedCredit
  let bcCredits := BC_BPA * BC_BPA_RATE + cpp.extraBcCredit
  let fedNet := applyCredits fedGross fedCredits
  let bcNet := applyCredits bcGross bcCredits
  let personalTaxes := fedNet + bcNet
  let personalCPP := cpp.employeePaid
  { net := grossSalary - personalTaxes - personalCPP
    personalTaxes := personalTaxes
    personalCPP := personalCPP
    federalTax := fedNet
    provincialTax := bcNet
    taxableIncome := taxableIncome
    cpp := cpp }

/-- Doubling phase of solveGrossForNet: up to 20 times, double high while the
net at high is still below the target. -/
def expandHigh (t : ℚ) : Nat → ℚ → ℚ
  | 0, high => high
  | n + 1, high => if (netFromGross high).net ≥ t then high else expandHigh t n (high * 2)

/-- Bisection loop of solveGrossForNet with the iteration budget as fuel:
return the midpoint once the residual or the step size is within tolerance,
otherwise narrow toward the side containing the target; when the fuel runs
out return the last midpoint. -/
def solveLoop (t : ℚ) : Nat → ℚ → ℚ → ℚ → ℚ
  | 0, _, _, lastMid => lastMid
  | n + 1, low, high, lastMid =>
    let mid := (low + high) / 2
    let s := netFromGross mid
    if |s.net - t| ≤ 0.01 ∨ |mid - lastMid| ≤ 0.01 then mid
    else if s.net < t then solveLoop t n mid high mid
    else solveLoop t n low mid mid

/-- The value of high after the doubling phase of solveGrossForNet, starting
from the initial guess max(500000, 2 times the target). -/
def highAfterDoubling (personalCashNeeded : ℚ) : ℚ :=
  expandHigh personalCashNeeded 20 (max 500000 (personalCashNeeded * 2))

/-- solveGrossForNet of the salary component with the default options:
tolerance 0.01, 100 iterations, initial high max(500000, 2 times target),
returning the solved gross salary. -/
def solveGrossForNet (personalCashNeeded : ℚ) : ℚ :=
  let low := max 0 personalCashNeeded
  let high := highAfterDoubling personalCashNeeded
  solveLoop personalCashNeeded 100 low high high

/-- Output record of calculateIncorporatedSalary (ScenarioOutput shape). -/
structure SalaryOutput where
  grossSalary : ℚ
  eligibleDividends : ℚ
  nonEligibleDividends : ℚ
  corporateTaxes : ℚ
  corporateCPP : ℚ
  personalTaxes : ℚ
  totalTaxes : ℚ
  totalCPP : ℚ
  personalCPP : ℚ
  corporateCash : ℚ
  personalCash : ℚ
  totalCash : ℚ
  totalTaxRate : ℚ
  rrspRoom : ℚ
  federalTax : ℚ
  provincialTax : ℚ
  taxableIncome : ℚ

/-- calculateIncorporatedSalary of the salary component: solve the gross
salary for the target personal cash, then compute the corporate side with
the employer CPP and the BC corporate tax. -/
def calculateIncorporatedSalary (businessIncome personalCashNeeded otherExpenses : ℚ) :
    SalaryOutput :=
  let grossSalary := solveGrossForNet personalCashNeeded
  let solved := netFromGross grossSalary
  let personalTaxes := solved.personalTaxes
  let personalCPP := solved.personalCPP
  let corporateCPP := solved.cpp.employerPaid
  let corpProfitBeforeTax :=
    max 0 (businessIncome - grossSalary - corporateCPP - otherExpenses)
  let corporateTaxes := (computeCorporateTaxesBC corpProfitBeforeTax).corporateTaxes
  let corporateCash := corpProfitBeforeTax - corporateTaxes
  let personalCash := grossSalary - personalTaxes - personalCPP
  let totalTaxes := personalTaxes + corporateTaxes
  let totalCPP := personalCPP + corporateCPP
  let totalCash := personalCash + corporateCash
  let totalTaxRate :=
    if businessIncome > 0 then (totalTaxes + totalCPP) / businessIncome else 0
  let rrspRoom := min (grossSalary * RRSP_PCT) RRSP_MAX_2025
  { grossSalary := grossSalary
    eligibleDividends := 0
    nonEligibleDividends := 0
    corporateTaxes := corporateTaxes
    corporateCPP := corporateCPP
    personalTaxes := personalTaxes
    totalTaxes := totalTaxes
    totalCPP := totalCPP
    personalCPP := personalCPP
    corporateCash := corporateCash
    personalCash := personalCash
    totalCash := totalCash
    totalTaxRate := totalTaxRate
    rrspRoom := rrspRoom
    federalTax := solved.federalTax
    provincialTax := solved.provincialTax
    taxableIncome := solved.taxableIncome }

end Salary

namespace Div

def GROSS_UP_ELIGIBLE : ℚ := 1.38

def GROSS_UP_NON_ELIGIBLE : ℚ := 1.15

def FED_DTC_RATE_ELIGIBLE : ℚ := 0.150198

def FED_DTC_RATE_NON_ELIGIBLE : ℚ := 0.090301

def BC_DTC_RATE_ELIGIBLE : ℚ := 0.12

def BC_DTC_RATE_NON_ELIGIBLE : ℚ := 0.0196

/-- applyNonRefundableCredits of the dividend component: apply combined
credits in one step, floored at zero. -/
def applyNonRefundableCredits (grossTax totalCredits : ℚ) : ℚ :=
  max 0 (grossTax - max 0 totalCredits)

/-- Record returned by personalDividendTaxCombined of the dividend
component. -/
structure DivTaxDetail where
  personalTax : ℚ
  federalTax : ℚ
  provincialTax : ℚ
  taxableAmount : ℚ

/-- personalDividendTaxCombined of the dividend component: gross up each
class of cash dividend, tax the combined grossed-up amount on both bracket
tables, and subtract the per-class dividend tax credits together with the
basic personal amounts, floored at zero per jurisdiction. -/
def personalDividendTaxCombined (eligibleCash nonEligibleCash : ℚ) : DivTaxDetail :=
  let eligGrossed := max 0 eligibleCash * GROSS_UP_ELIGIBLE
  let nonEligGrossed := max 0 nonEligibleCash * GROSS_UP_NON_ELIGIBLE
  let grossedTotal := eligGrossed + nonEligGrossed
  let fedTaxGross := progressiveTax grossedTotal FED_BRACKETS
  let bcTaxGross := progressiveTax grossedTotal BC_BRACKETS
  let fedDTC := eligGrossed * FED_DTC_RATE_ELIGIBLE + nonEligGrossed * FED_DTC_RATE_NON_ELIGIBLE
  let bcDTC := eligGrossed * BC_DTC_RATE_ELIGIBLE + nonEligGrossed * BC_DTC_RATE_NON_ELIGIBLE
  let fedBpaCredit := FED_BPA * FED_BPA_RATE
  let bcBpaCredit := BC_BPA * BC_BPA_RATE
  let fedNet := applyNonRefundableCredits fedTaxGross (fedDTC + fedBpaCredit)
  let bcNet := applyNonRefundableCredits bcTaxGross (bcDTC + bcBpaCredit)
  { personalTax := fedNet + bcNet
    federalTax := fedNet
    provincialTax := bcNet
    taxableAmount := grossedTotal }

/-- netCombined of the dividend component: net personal cash from a combined
cash dividend. -/
def netCombined (eligibleCash nonEligibleCash : ℚ) : ℚ :=
  eligibleCash + nonEligibleCash -
    (personalDividendTaxCombined eligibleCash nonEligibleCash).personalTax

/-- Net at an eligible amount with the non-eligible amount fixed, the
function bisected by solveEligibleGivenNonEligible. -/
def netAtElig (nonEligibleFixed x : ℚ) : ℚ :=
  x + nonEligibleFixed - (personalDividendTaxCombined x nonEligibleFixed).personalTax

/-- Net at a non-eligible amount with the eligible amount fixed, the function
bisected by solveNonEligibleGivenEligible. -/
def netAtNonElig (eligibleFixed ne : ℚ) : ℚ :=
  eligibleFixed + ne - (personalDividendTaxCombined eligibleFixed ne).personalTax

/-- Bisection loop of solveEligibleGivenNonEligible with its 80-iteration
budget as fuel; every exit clamps the answer at the eligible capacity. -/
def solveEligLoop (targetNet nonEligibleFixed eligCap : ℚ) : Nat → ℚ → ℚ → ℚ → ℚ
  | 0, _, _, lastMid => min lastMid eligCap
  | n + 1, low, high, lastMid =>
    let mid := (low + high) / 2
    let nv := netAtElig nonEligibleFixed mid
    if |nv - targetNet| ≤ 0.01 ∨ |mid - lastMid| ≤ 0.01 then min mid eligCap
    else if nv < targetNet then solveEligLoop targetNet nonEligibleFixed eligCap n mid high mid
    else solveEligLoop targetNet nonEligibleFixed eligCap n low mid mid

/-- solveEligibleGivenNonEligible of the dividend component: if even the full
capacity cannot reach the target within tolerance, use the capacity;
otherwise bisect on [0, max(cap, 1)]. -/
def solveEligibleGivenNonEligible (targetNet nonEligibleFixed eligCap : ℚ) : ℚ :=
  if netAtElig nonEligibleFixed eligCap < targetNet - 0.01 then eligCap
  else solveEligLoop targetNet nonEligibleFixed eligCap 80 0 (max eligCap 1) (max eligCap 1)

/-- Bisection loop of solveNonEligibleGivenEligible, mirror of
solveEligLoop. -/
def solveNonEligLoop (targetNet eligibleFixed neCap : ℚ) : Nat → ℚ → ℚ → ℚ → ℚ
  | 0, _, _, lastMid => min lastMid neCap
  | n + 1, low, high, lastMid =>
    let mid := (low + high) / 2
    let nv := netAtNonElig eligibleFixed mid
    if |nv - targetNet| ≤ 0.01 ∨ |mid - lastMid| ≤ 0.01 then min mid neCap
    else if nv < targetNet then solveNonEligLoop targetNet eligibleFixed neCap n mid high mid
    else solveNonEligLoop targetNet eligibleFixed neCap n low mid mid

/-- solveNonEligibleGivenEligible of the dividend component. -/
def solveNonEligibleGivenEligible (targetNet eligibleFixed neCap : ℚ) : ℚ :=
  if netAtNonElig eligibleFixed neCap < targetNet - 0.01 then neCap
  else solveNonEligLoop targetNet eligibleFixed neCap 80 0 (max neCap 1) (max neCap 1)

def SBD_LIMIT : ℚ := 500000

def RATE_SBD : ℚ := 0.11

def RATE_GEN : ℚ := 0.27

/-- Corporate profit before tax in the dividend component: business income
less other expenses, clamped at zero. -/
def profitBeforeTax (businessIncome otherExpenses : ℚ) : ℚ :=
  max 0 (businessIncome - otherExpenses)

/-- Small-business-rate pool base. -/
def sbdBase (businessIncome otherExpenses : ℚ) : ℚ :=
  min (profitBeforeTax businessIncome otherExpenses) SBD_LIMIT

/-- General-rate pool base. -/
def genBase (businessIncome otherExpenses : ℚ) : ℚ :=
  max 0 (profitBeforeTax businessIncome otherExpenses - SBD_LIMIT)

/-- Corporate tax on the small-business pool. -/
def taxSBD (businessIncome otherExpenses : ℚ) : ℚ :=
  sbdBase businessIncome otherExpenses * RATE_SBD

/-- Corporate tax on the general pool. -/
def taxGEN (businessIncome otherExpenses : ℚ) : ℚ :=
  genBase businessIncome otherExpenses * RATE_GEN

/-- After-tax capacity of the small-business pool, funding NON-eligible
dividends. -/
def neCap (businessIncome otherExpenses : ℚ) : ℚ :=
  sbdBase businessIncome otherExpenses - taxSBD businessIncome otherExpenses

/-- After-tax capacity of the general pool, funding ELIGIBLE dividends. -/
def elCap (businessIncome otherExpenses : ℚ) : ℚ :=
  genBase businessIncome otherExpenses - taxGEN businessIncome otherExpenses

/-- The eligible-first dividend mix of calculateIncorporatedDividends: try to
hit the target with eligible dividends only; when that cannot meet the goal
use the full eligible capacity and top up with non-eligible, and finally
clamp both amounts at their pool capacities. -/
def dividendMix (target elCapacity neCapacity : ℚ) : ℚ × ℚ :=
  let eligOnly := solveEligibleGivenNonEligible target 0 elCapacity
  let pair :=
    if netCombined eligOnly 0 + 0.01 ≥ target then (eligOnly, (0 : ℚ))
    else (elCapacity, min (solveNonEligibleGivenEligible target elCapacity neCapacity) neCapacity)
  (min pair.1 elCapacity, min pair.2 neCapacity)

/-- Output record of calculateIncorporatedDividends, including the two debug
fields of the source. -/
structure DividendOutput where
  grossSalary : ℚ
  eligibleDividends : ℚ
  nonEligibleDividends : ℚ
  corporateTaxes : ℚ
  corporateCPP : ℚ
  personalTaxes : ℚ
  totalTaxes : ℚ
  totalCPP : ℚ
  personalCPP : ℚ
  corporateCash : ℚ
  personalCash : ℚ
  totalCash : ℚ
  totalTaxRate : ℚ
  rrspRoom : ℚ
  federalTax : ℚ
  provincialTax : ℚ
  taxableIncome : ℚ
  _requiredDividendToHitTarget : ℚ
  _cappedByAfterTaxProfit : Bool

/-- calculateIncorporatedDividends of the dividend component. -/
def calculateIncorporatedDividends (businessIncome personalCashNeeded otherExpenses : ℚ) :
    DividendOutput :=
  let corporateTaxes := taxSBD businessIncome otherExpenses + taxGEN businessIncome otherExpenses
  let neCapacity := neCap businessIncome otherExpenses
  let elCapacity := elCap businessIncome otherExpenses
  let afterTaxTotal := neCapacity + elCapacity
  let target := max 0 personalCashNeeded
  let mix := dividendMix target elCapacity neCapacity
  let eligibleDividends := mix.1
  let nonEligibleDividends := mix.2
  let det := personalDividendTaxCombined eligibleDividends nonEligibleDividends
  let personalTaxes := det.personalTax
  let personalCash := eligibleDividends + nonEligibleDividends - personalTaxes
  let corporateCash := afterTaxTotal - eligibleDividends - nonEligibleDividends
  let totalCPP := (0 : ℚ)
  let totalTaxes := personalTaxes + corporateTaxes
  let totalCash := personalCash + corporateCash
  let totalTaxRate :=
    if businessIncome > 0 then (totalTaxes + totalCPP) / businessIncome else 0
  let capped := decide (netCombined elCapacity neCapacity + 0.01 < target)
  { grossSalary := 0
    eligibleDividends := eligibleDividends
    nonEligibleDividends := nonEligibleDividends
    corporateTaxes := corporateTaxes
    corporateCPP := 0
    personalTaxes := personalTaxes
    totalTaxes := totalTaxes
    totalCPP := totalCPP
    personalCPP := 0
    corporateCash := corporateCash
    personalCash := personalCash
    totalCash := totalCash
    totalTaxRate := totalTaxRate
    rrspRoom := 0
    federalTax := det.federalTax
    provincialTax := det.provincialTax
    taxableIncome := det.taxableAmount
    _requiredDividendToHitTarget := eligibleDividends + nonEligibleDividends
    _cappedByAfterTaxProfit := capped }

end Div

/-! Claim theorems C1, C2, C5, C6, C7, C10. -/

/-- C6: for every non-negative taxable amount and every valid bracket table
(strictly increasing ceilings, unbounded last entry), progressiveTax returns
the ascending sum of max(0, min(taxable, cap) - previousCeiling) times rate
over the brackets, and progressiveTax at 0 is 0; a taxable amount above all
finite ceilings falls into the last (unbounded) band of that sum. -/
theorem progressiveTax_is_bracket_sum (t : ℚ) (brs : List TaxBracket)
    (hwf : wfFrom 0 brs = true) (_ht : 0 ≤ t) :
    progressiveTax t brs = specSum t brs ∧ progressiveTax 0 brs = 0 :=
  ⟨progressiveTax_eq_specSum t hwf, progressiveTax_zero brs⟩

/-- Witness for C6 at the federal table and taxable amount 300000 (above all
finite federal ceilings). -/
theorem progressiveTax_is_bracket_sum_witness :
    wfFrom 0 FED_BRACKETS = true ∧ (0 : ℚ) ≤ 300000 ∧
      (progressiveTax 300000 FED_BRACKETS = specSum 300000 FED_BRACKETS ∧
        progressiveTax 0 FED_BRACKETS = 0) :=
  ⟨fed_wf, by norm_num, progressiveTax_is_bracket_sum 300000 FED_BRACKETS fed_wf (by norm_num)⟩

/-- C7: for every valid bracket table (rates being fractions per the data
model, bounded here between 0 and hi), progressiveTax at 0 is 0, and
progressiveTax is non-decreasing in its taxable input and continuous in it:
it satisfies the Lipschitz bound by the top rate (so there is no jump at any
bracket boundary), and is a continuous function of the taxable amount. -/
theorem progressiveTax_monotone_continuous (brs : List TaxBracket) (hi : ℚ)
    (hwf : wfFrom 0 brs = true) (hr : ratesIn 0 hi brs = true) (hhi : 0 ≤ hi) :
    progressiveTax 0 brs = 0 ∧
      (∀ a b : ℚ, a ≤ b → progressiveTax a brs ≤ progressiveTax b brs) ∧
      (∀ a b : ℚ, a ≤ b → progressiveTax b brs - progressiveTax a brs ≤ hi * (b - a)) ∧
      Continuous (fun t : ℚ => progressiveTax t brs) := by
  have hmono : ∀ a b : ℚ, a ≤ b → progressiveTax a brs ≤ progressiveTax b brs :=
    fun a b hab => progressiveTax_mono hwf hr hab
  have hlipq : ∀ a b : ℚ, a ≤ b →
      progressiveTax b brs - progressiveTax a brs ≤ hi * (b - a) :=
    fun a b hab => progressiveTax_sub_le hwf hr hhi hab
  refine ⟨progressiveTax_zero brs, hmono, hlipq, ?_⟩
  have habs : ∀ x y : ℚ,
      |progressiveTax x brs - progressiveTax y brs| ≤ hi * |x - y| := by
    intro x y
    rcases le_total x y with h | h
    · have h1 := hmono x y h
      have h2 := hlipq x y h
      rw [abs_of_nonpos (by linarith), abs_of_nonpos (by linarith)]
      linarith
    · have h1 := hmono y x h
      have h2 := hlipq y x h
      rw [abs_of_nonneg (by linarith), abs_of_nonneg (by linarith)]
      linarith
  have hK : (0 : ℝ) ≤ (hi : ℝ) := by exact_mod_cast hhi
  have hlip : LipschitzWith ⟨(hi : ℝ), hK⟩ (fun t : ℚ => progressiveTax t brs) := by
    apply LipschitzWith.of_dist_le_mul
    intro x y
    rw [Rat.dist_eq, Rat.dist_eq]
    have := habs x y
    have hcast : |((progressiveTax x brs : ℚ) : ℝ) - ((progressiveTax y brs : ℚ) : ℝ)| ≤
        (hi : ℝ) * |(x : ℝ) - (y : ℝ)| := by
      exact_mod_cast this
    simpa using hcast
  exact hlip.continuous

/-- Witness for C7 at the BC table with top rate 0.2050. -/
theorem progressiveTax_monotone_continuous_witness :
    progressiveTax 0 BC_BRACKETS = 0 ∧
      (∀ a b : ℚ, a ≤ b → progressiveTax a BC_BRACKETS ≤ progressiveTax b BC_BRACKETS) ∧
      (∀ a b : ℚ, a ≤ b →
        progressiveTax b BC_BRACKETS - progressiveTax a BC_BRACKETS ≤ 0.2050 * (b - a)) ∧
      Continuous (fun t : ℚ => progressiveTax t BC_BRACKETS) :=
  progressiveTax_monotone_continuous BC_BRACKETS 0.2050 bc_wf bc_rates0 (by norm_num)

/-- C5: computeCorporateTaxesBC clamps the profit at zero, taxes
min(p, 500000) at 11 percent and the excess at 27 percent, reports the
effective rate as tax over profit for positive profit and 0 at zero profit;
at 600000 it returns 82000 of tax and an effective rate within 0.0001 of
0.1367. -/
theorem computeCorporateTaxesBC_contract (p : ℚ) :
    computeCorporateTaxesBC p = computeCorporateTaxesBC (max 0 p) ∧
      (0 ≤ p → (computeCorporateTaxesBC p).corporateTaxes =
        min p 500000 * 0.11 + max 0 (p - 500000) * 0.27) ∧
      (0 < p → (computeCorporateTaxesBC p).effectiveRate =
        (computeCorporateTaxesBC p).corporateTaxes / p) ∧
      (p = 0 → (computeCorporateTaxesBC p).effectiveRate = 0) ∧
      (computeCorporateTaxesBC 600000).corporateTaxes = 82000 ∧
      |(computeCorporateTaxesBC 600000).effectiveRate - 0.1367| ≤ 0.0001 := by
  refine ⟨?_, ?_, ?_, ?_, ?_, ?_⟩
  · simp only [computeCorporateTaxesBC]
    rw [max_eq_right (max0_nonneg p)]
  · intro hp
    simp only [computeCorporateTaxesBC, SBD_LIMIT_BC, RATE_SBD_COMBINED, RATE_GEN_COMBINED]
    rw [max_eq_right hp]
  · intro hp
    simp only [computeCorporateTaxesBC]
    rw [max_eq_right (le_of_lt hp)]
    rw [if_pos hp]
  · intro hp
    subst hp
    simp only [computeCorporateTaxesBC]
    norm_num
  · with_unfolding_all rfl
  · exact of_decide_eq_true (by with_unfolding_all rfl)

/-- Witness for C5 at profit 600000 (and the zero-profit case at 0). -/
theorem computeCorporateTaxesBC_contract_witness :
    (computeCorporateTaxesBC 600000).corporateTaxes =
        min 600000 500000 * 0.11 + max 0 ((600000 : ℚ) - 500000) * 0.27 ∧
      (computeCorporateTaxesBC 600000).effectiveRate =
        (computeCorporateTaxesBC 600000).corporateTaxes / 600000 ∧
      (computeCorporateTaxesBC 0).effectiveRate = 0 :=
  ⟨(computeCorporateTaxesBC_contract 600000).2.1 (by norm_num),
   (computeCorporateTaxesBC_contract 600000).2.2.1 (by norm_num),
   (computeCorporateTaxesBC_contract 0).2.2.2.1 rfl⟩

/-- C1: the claim states that personalCash of calculateUnincorporated equals
businessIncome minus net personal tax minus the TOTAL self-employed
contribution cash.  At businessIncome 100000 the code subtracts only half of
totalCPP: personalCash equals gross minus personalTaxes minus totalCPP / 2,
and differs both from gross minus personalTaxes minus totalCPP and from the
same with the full self-employed cash of cppTaxTreatmentForUnincorporated.
This contradicts the treatment documented in cppHelpers.ts (the individual
pays both sides in cash), so the code, not the claim, is wrong here. -/
theorem calculateUnincorporated_cash_subtracts_half_contribution :
    (Engine.calculateUnincorporated 100000).personalCash =
        100000 - (Engine.calculateUnincorporated 100000).personalTaxes -
          (Engine.calculateUnincorporated 100000).totalCPP / 2 ∧
      (Engine.calculateUnincorporated 100000).personalCash ≠
        100000 - (Engine.calculateUnincorporated 100000).personalTaxes -
          (Engine.calculateUnincorporated 100000).totalCPP ∧
      (Engine.calculateUnincorporated 100000).personalCash ≠
        100000 - (Engine.calculateUnincorporated 100000).personalTaxes -
          (CppHelpers.cppTaxTreatmentForUnincorporated 100000).personalPaid :=
  ⟨by with_unfolding_all rfl,
   of_decide_eq_true (by with_unfolding_all rfl),
   of_decide_eq_true (by with_unfolding_all rfl)⟩

/-- Modelled from the spec (sections 4.3 and 4.4): the combined federal
non-refundable credits of the unincorporated scenario, the basic personal
amount at the lowest federal bracket rate plus the creditable contribution
amount (the employee-side tier-1 base contribution of the self-employed
variant) at the same rate.  calcUnincorporated.ts computes no such credits;
this definition carries the words of the spec for comparison. -/
def specFedCreditsUninc (gross : ℚ) : ℚ :=
  FED_BPA * FED_BPA_RATE +
    (CppHelpers.cppTaxTreatmentForUnincorporated gross).creditBaseEE * FED_BPA_RATE

/-- Modelled from the spec: the combined provincial non-refundable credits of
the unincorporated scenario, as specFedCreditsUninc with the BC basic amount
and lowest BC rate. -/
def specBcCreditsUninc (gross : ℚ) : ℚ :=
  BC_BPA * BC_BPA_RATE +
    (CppHelpers.cppTaxTreatmentForUnincorporated gross).creditBaseEE * BC_BPA_RATE

/-- C2: the claim states that the personal taxes of calculateUnincorporated
are the bracket taxes on the reduced taxable income each reduced, floored at
zero, by the combined credits (basic amount plus creditable contribution at
the lowest rate).  At businessIncome 100000 the code returns the raw bracket
taxes on its taxable income with no credit subtracted at all, differing from
the credit-reduced values demanded by the claim; the credits the spec
describes are exactly the ones cppHelpers.ts computes and the engine never
uses, so the code, not the claim, is wrong here. -/
theorem calculateUnincorporated_taxes_lack_credits :
    (Engine.calculateUnincorporated 100000).federalTax =
        progressiveTax (Engine.calculateUnincorporated 100000).taxableIncome FED_BRACKETS ∧
      (Engine.calculateUnincorporated 100000).provincialTax =
        progressiveTax (Engine.calculateUnincorporated 100000).taxableIncome BC_BRACKETS ∧
      (Engine.calculateUnincorporated 100000).federalTax ≠
        max 0 (progressiveTax (Engine.calculateUnincorporated 100000).taxableIncome FED_BRACKETS
          - specFedCreditsUninc 100000) ∧
      (Engine.calculateUnincorporated 100000).provincialTax ≠
        max 0 (progressiveTax (Engine.calculateUnincorporated 100000).taxableIncome BC_BRACKETS
          - specBcCreditsUninc 100000) :=
  ⟨by with_unfolding_all rfl,
   by with_unfolding_all rfl,
   of_decide_eq_true (by with_unfolding_all rfl),
   of_decide_eq_true (by with_unfolding_all rfl)⟩

/-- C10: every result of the three scenario calculators satisfies
totalTaxes = personalTaxes + corporateTaxes, totalCPP = personalCPP +
corporateCPP and totalCash = personalCash + corporateCash. -/
theorem scenario_outputs_sum_consistent (bi pcn oe : ℚ) :
    ((Engine.calculateUnincorporated bi).totalTaxes =
        (Engine.calculateUnincorporated bi).personalTaxes +
          (Engine.calculateUnincorporated bi).corporateTaxes) ∧
      ((Engine.calculateUnincorporated bi).totalCPP =
        (Engine.calculateUnincorporated bi).personalCPP +
          (Engine.calculateUnincorporated bi).corporateCPP) ∧
      ((Engine.calculateUnincorporated bi).totalCash =
        (Engine.calculateUnincorporated bi).personalCash +
          (Engine.calculateUnincorporated bi).corporateCash) ∧
      ((Salary.calculateIncorporatedSalary bi pcn oe).totalTaxes =
        (Salary.calculateIncorporatedSalary bi pcn oe).personalTaxes +
          (Salary.calculateIncorporatedSalary bi pcn oe).corporateTaxes) ∧
      ((Salary.calculateIncorporatedSalary bi pcn oe).totalCPP =
        (Salary.calculateIncorporatedSalary bi pcn oe).personalCPP +
          (Salary.calculateIncorporatedSalary bi pcn oe).corporateCPP) ∧
      ((Salary.calculateIncorporatedSalary bi pcn oe).totalCash =
        (Salary.calculateIncorporatedSalary bi pcn oe).personalCash +
          (Salary.calculateIncorporatedSalary bi pcn oe).corporateCash) ∧
      ((Div.calculateIncorporatedDividends bi pcn oe).totalTaxes =
        (Div.calculateIncorporatedDividends bi pcn oe).personalTaxes +
          (Div.calculateIncorporatedDividends bi pcn oe).corporateTaxes) ∧
      ((Div.calculateIncorporatedDividends bi pcn oe).totalCPP =
        (Div.calculateIncorporatedDividends bi pcn oe).personalCPP +
          (Div.calculateIncorporatedDividends bi pcn oe).corporateCPP) ∧
      ((Div.calculateIncorporatedDividends bi pcn oe).totalCash =
        (Div.calculateIncorporatedDividends bi pcn oe).personalCash +
          (Div.calculateIncorporatedDividends bi pcn oe).corporateCash) := by
  refine ⟨rfl, ?_, ?_, rfl, rfl, rfl, rfl, ?_, rfl⟩
  · simp only [Engine.calculateUnincorporated]
    ring
  · simp only [Engine.calculateUnincorporated]
    ring
  · simp only [Div.calculateIncorporatedDividends]
    norm_num

/-! Claim theorems C3, C8, C9 with their supporting lemmas. -/

lemma elCap_nonneg (bi oe : ℚ) : 0 ≤ Div.elCap bi oe := by
  have h := max0_nonneg (Div.profitBeforeTax bi oe - Div.SBD_LIMIT)
  simp only [Div.elCap, Div.taxGEN, Div.genBase, Div.RATE_GEN] at *
  nlinarith

lemma neCap_nonneg (bi oe : ℚ) : 0 ≤ Div.neCap bi oe := by
  have h0 : 0 ≤ Div.profitBeforeTax bi oe := max0_nonneg _
  have h1 : 0 ≤ Div.sbdBase bi oe := by
    simp only [Div.sbdBase, Div.SBD_LIMIT]
    exact le_min h0 (by norm_num)
  simp only [Div.neCap, Div.taxSBD, Div.RATE_SBD] at *
  nlinarith

lemma solveEligLoop_bounds (t nf cap : ℚ) (hcap : 0 ≤ cap) :
    ∀ (fuel : Nat) (low high lastMid : ℚ), 0 ≤ low → 0 ≤ high → 0 ≤ lastMid →
      0 ≤ Div.solveEligLoop t nf cap fuel low high lastMid ∧
        Div.solveEligLoop t nf cap fuel low high lastMid ≤ cap := by
  intro fuel
  induction fuel with
  | zero =>
    intro low high lastMid _ _ hl
    exact ⟨le_min hl hcap, min_le_right _ _⟩
  | succ n ih =>
    intro low high lastMid hlow hhigh _
    have hmid : 0 ≤ (low + high) / 2 := by linarith
    simp only [Div.solveEligLoop]
    split_ifs with h1 h2
    · exact ⟨le_min hmid hcap, min_le_right _ _⟩
    · exact ih ((low + high) / 2) high ((low + high) / 2) hmid hhigh hmid
    · exact ih low ((low + high) / 2) ((low + high) / 2) hlow hmid hmid

lemma solveElig_bounds (t nf cap : ℚ) (hcap : 0 ≤ cap) :
    0 ≤ Div.solveEligibleGivenNonEligible t nf cap ∧
      Div.solveEligibleGivenNonEligible t nf cap ≤ cap := by
  simp only [Div.solveEligibleGivenNonEligible]
  split_ifs with h1
  · exact ⟨hcap, le_rfl⟩
  · exact solveEligLoop_bounds t nf cap hcap 80 0 (max cap 1) (max cap 1) le_rfl
      (le_max_of_le_right zero_le_one) (le_max_of_le_right zero_le_one)

lemma solveNonEligLoop_bounds (t ef cap : ℚ) (hcap : 0 ≤ cap) :
    ∀ (fuel : Nat) (low high lastMid : ℚ), 0 ≤ low → 0 ≤ high → 0 ≤ lastMid →
      0 ≤ Div.solveNonEligLoop t ef cap fuel low high lastMid ∧
        Div.solveNonEligLoop t ef cap fuel low high lastMid ≤ cap := by
  intro fuel
  induction fuel with
  | zero =>
    intro low high lastMid _ _ hl
    exact ⟨le_min hl hcap, min_le_right _ _⟩
  | succ n ih =>
    intro low high lastMid hlow hhigh _
    have hmid : 0 ≤ (low + high) / 2 := by linarith
    simp only [Div.solveNonEligLoop]
    split_ifs with h1 h2
    · exact ⟨le_min hmid hcap, min_le_right _ _⟩
    · exact ih ((low + high) / 2) high ((low + high) / 2) hmid hhigh hmid
    · exact ih low ((low + high) / 2) ((low + high) / 2) hlow hmid hmid

lemma solveNonElig_bounds (t ef cap : ℚ) (hcap : 0 ≤ cap) :
    0 ≤ Div.solveNonEligibleGivenEligible t ef cap ∧
      Div.solveNonEligibleGivenEligible t ef cap ≤ cap := by
  simp only [Div.solveNonEligibleGivenEligible]
  split_ifs with h1
  · exact ⟨hcap, le_rfl⟩
  · exact solveNonEligLoop_bounds t ef cap hcap 80 0 (max cap 1) (max cap 1) le_rfl
      (le_max_of_le_right zero_le_one) (le_max_of_le_right zero_le_one)

lemma dividendMix_bounds (target elc nec : ℚ) (he : 0 ≤ elc) (hn : 0 ≤ nec) :
    0 ≤ (Div.dividendMix target elc nec).1 ∧ (Div.dividendMix target elc nec).1 ≤ elc ∧
      0 ≤ (Div.dividendMix target elc nec).2 ∧ (Div.dividendMix target elc nec).2 ≤ nec := by
  have hsolve := solveElig_bounds target 0 elc he
  simp only [Div.dividendMix]
  split_ifs with h1
  · exact ⟨le_min hsolve.1 he, min_le_right _ _, le_min le_rfl hn, min_le_right _ _⟩
  · exact ⟨le_min he he, min_le_right _ _, le_min (le_min (solveNonElig_bounds target elc nec hn).1 hn) hn, min_le_right _ _⟩

/-- C3: the dividends returned by calculateIncorporatedDividends are
non-negative and never exceed the after-tax capacity of their pools:
eligible at most elCap (genBase minus taxGEN) and non-eligible at most neCap
(sbdBase minus taxSBD), for every input. -/
theorem calculateIncorporatedDividends_within_capacity (bi pcn oe : ℚ) :
    0 ≤ (Div.calculateIncorporatedDividends bi pcn oe).eligibleDividends ∧
      (Div.calculateIncorporatedDividends bi pcn oe).eligibleDividends ≤ Div.elCap bi oe ∧
      0 ≤ (Div.calculateIncorporatedDividends bi pcn oe).nonEligibleDividends ∧
      (Div.calculateIncorporatedDividends bi pcn oe).nonEligibleDividends ≤ Div.neCap bi oe :=
  dividendMix_bounds (max 0 pcn) (Div.elCap bi oe) (Div.neCap bi oe)
    (elCap_nonneg bi oe) (neCap_nonneg bi oe)

lemma dividendMix_eligible_first (target elc nec : ℚ) (hn : 0 ≤ nec)
    (h : 0 < (Div.dividendMix target elc nec).2) :
    (Div.dividendMix target elc nec).1 = elc := by
  simp only [Div.dividendMix] at *
  split_ifs at h ⊢ with h1
  · rw [min_eq_left hn] at h
    exact absurd h (lt_irrefl 0)
  · exact min_self elc

/-- C8: eligible-first ordering: the non-eligible dividend returned by
calculateIncorporatedDividends is strictly positive only when the returned
eligible dividend equals the full after-tax eligible pool capacity elCap. -/
theorem calculateIncorporatedDividends_eligible_first (bi pcn oe : ℚ)
    (h : 0 < (Div.calculateIncorporatedDividends bi pcn oe).nonEligibleDividends) :
    (Div.calculateIncorporatedDividends bi pcn oe).eligibleDividends = Div.elCap bi oe :=
  dividendMix_eligible_first (max 0 pcn) (Div.elCap bi oe) (Div.neCap bi oe)
    (neCap_nonneg bi oe) h

/-- Witness for C8 at business income 800000, target 400000: the non-eligible
dividend is positive and the eligible dividend equals the pool capacity. -/
theorem calculateIncorporatedDividends_eligible_first_witness :
    0 < (Div.calculateIncorporatedDividends 800000 400000 0).nonEligibleDividends ∧
      (Div.calculateIncorporatedDividends 800000 400000 0).eligibleDividends =
        Div.elCap 800000 0 :=
  ⟨of_decide_eq_true (by with_unfolding_all rfl),
   calculateIncorporatedDividends_eligible_first 800000 400000 0
     (of_decide_eq_true (by with_unfolding_all rfl))⟩

lemma applyNRC_nonneg (gt cr : ℚ) : 0 ≤ Div.applyNonRefundableCredits gt cr :=
  max0_nonneg _

lemma applyNRC_le (gt cr : ℚ) (hgt : 0 ≤ gt) : Div.applyNonRefundableCredits gt cr ≤ gt := by
  have h1 : gt - max 0 cr ≤ gt := by linarith [max0_nonneg cr]
  have h2 : max 0 (gt - max 0 cr) ≤ max 0 gt := max0_mono h1
  rw [max_eq_right hgt] at h2
  exact h2

lemma pdtc_tax_le (e n : ℚ) :
    (Div.personalDividendTaxCombined e n).personalTax ≤
      0.535 * (max 0 e * 1.38 + max 0 n * 1.15) := by
  have hG0 : 0 ≤ max 0 e * 1.38 + max 0 n * 1.15 := by
    nlinarith [max0_nonneg e, max0_nonneg n]
  have hft := progressiveTax_le_mul (t := max 0 e * 1.38 + max 0 n * 1.15)
    fed_wf fed_rates0 (by norm_num) hG0
  have hbt := progressiveTax_le_mul (t := max 0 e * 1.38 + max 0 n * 1.15)
    bc_wf bc_rates0 (by norm_num) hG0
  have hf0 := progressiveTax_nonneg (max 0 e * 1.38 + max 0 n * 1.15) fed_wf fed_rates0
  have hb0 := progressiveTax_nonneg (max 0 e * 1.38 + max 0 n * 1.15) bc_wf bc_rates0
  have h1 := applyNRC_le (progressiveTax (max 0 e * 1.38 + max 0 n * 1.15) FED_BRACKETS)
    (max 0 e * 1.38 * Div.FED_DTC_RATE_ELIGIBLE +
      max 0 n * 1.15 * Div.FED_DTC_RATE_NON_ELIGIBLE + FED_BPA * FED_BPA_RATE) hf0
  have h2 := applyNRC_le (progressiveTax (max 0 e * 1.38 + max 0 n * 1.15) BC_BRACKETS)
    (max 0 e * 1.38 * Div.BC_DTC_RATE_ELIGIBLE +
      max 0 n * 1.15 * Div.BC_DTC_RATE_NON_ELIGIBLE + BC_BPA * BC_BPA_RATE) hb0
  simp only [Div.personalDividendTaxCombined, Div.GROSS_UP_ELIGIBLE, Div.GROSS_UP_NON_ELIGIBLE]
  linarith

lemma netCombined_nonneg (e n : ℚ) (he : 0 ≤ e) (hn : 0 ≤ n) :
    0 ≤ Div.netCombined e n := by
  have h := pdtc_tax_le e n
  rw [max_eq_right he, max_eq_right hn] at h
  simp only [Div.netCombined]
  linarith

/-- C9: calculateIncorporatedDividends is a total function (the embedding
returns a result for every rational input by construction), and its capped
flag is true exactly when paying the full after-tax capacity of both pools
still leaves the net personal cash more than the 0.01 tolerance below the
requested target. -/
theorem calculateIncorporatedDividends_capped_flag (bi pcn oe : ℚ) :
    (Div.calculateIncorporatedDividends bi pcn oe)._cappedByAfterTaxProfit = true ↔
      Div.netCombined (Div.elCap bi oe) (Div.neCap bi oe) < pcn - 0.01 := by
  have hproj : (Div.calculateIncorporatedDividends bi pcn oe)._cappedByAfterTaxProfit =
      decide (Div.netCombined (Div.elCap bi oe) (Div.neCap bi oe) + 0.01 < max 0 pcn) := rfl
  rw [hproj, decide_eq_true_iff]
  have hnc := netCombined_nonneg (Div.elCap bi oe) (Div.neCap bi oe)
    (elCap_nonneg bi oe) (neCap_nonneg bi oe)
  rcases le_total 0 pcn with hp | hp
  · rw [max_eq_right hp]
    constructor <;> intro h <;> linarith
  · rw [max_eq_left hp]
    constructor <;> intro h <;> linarith

/-! Analysis of the salary-scenario net function, toward the solver
round-trip claim C4. -/

lemma minc_sub_le {a b c : ℚ} (h : a ≤ b) : min b c - min a c ≤ b - a := by
  rcases le_total a c with h1 | h1 <;> rcases le_total b c with h2 | h2 <;>
    simp [min_def] <;> split_ifs <;> linarith

lemma clampBand_mono (c k : ℚ) {a b : ℚ} (h : a ≤ b) :
    max 0 (min (max 0 a) c - k) ≤ max 0 (min (max 0 b) c - k) :=
  max0_mono (by have := min_le_min (max0_mono h) (le_refl c); linarith)

lemma clampBand_lip (c k : ℚ) {a b : ℚ} (h : a ≤ b) :
    max 0 (min (max 0 b) c - k) - max 0 (min (max 0 a) c - k) ≤ b - a := by
  have h1 : min (max 0 a) c - k ≤ min (max 0 b) c - k := by
    have := min_le_min (max0_mono h) (le_refl c); linarith
  have h2 := max0_sub_le h1
  have h3 : min (max 0 b) c - min (max 0 a) c ≤ max 0 b - max 0 a :=
    minc_sub_le (max0_mono h)
  have h4 := max0_sub_le h
  linarith

lemma clampBand_le (c k : ℚ) (hk : 0 ≤ k) {x : ℚ} (hx : 0 ≤ x) :
    max 0 (min (max 0 x) c - k) ≤ x := by
  have h1 : min (max 0 x) c ≤ max 0 x := min_le_left _ _
  have h2 : max 0 x = x := max_eq_right hx
  exact max_le hx (by linarith)

namespace Salary

lemma split_fst (g : ℚ) :
    (splitCPPBases g).1 = max 0 (min (max 0 g) CPP_YMPE - CPP_BASIC_EXEMPTION) := rfl

lemma split_snd (g : ℚ) :
    (splitCPPBases g).2 = max 0 (min (max 0 g) CPP_YAMPE - CPP_YMPE) := rfl

lemma t1B_nonneg (g : ℚ) : 0 ≤ (splitCPPBases g).1 := by
  rw [split_fst]; exact max0_nonneg _

lemma t2B_nonneg (g : ℚ) : 0 ≤ (splitCPPBases g).2 := by
  rw [split_snd]; exact max0_nonneg _

lemma t1B_mono {a b : ℚ} (h : a ≤ b) : (splitCPPBases a).1 ≤ (splitCPPBases b).1 := by
  rw [split_fst, split_fst]; exact clampBand_mono _ _ h

lemma t2B_mono {a b : ℚ} (h : a ≤ b) : (splitCPPBases a).2 ≤ (splitCPPBases b).2 := by
  rw [split_snd, split_snd]; exact clampBand_mono _ _ h

lemma t1B_lip {a b : ℚ} (h : a ≤ b) :
    (splitCPPBases b).1 - (splitCPPBases a).1 ≤ b - a := by
  rw [split_fst, split_fst]; exact clampBand_lip _ _ h

lemma t2B_lip {a b : ℚ} (h : a ≤ b) :
    (splitCPPBases b).2 - (splitCPPBases a).2 ≤ b - a := by
  rw [split_snd, split_snd]; exact clampBand_lip _ _ h

lemma t1B_le {x : ℚ} (hx : 0 ≤ x) : (splitCPPBases x).1 ≤ x := by
  rw [split_fst]
  exact clampBand_le _ _ (by norm_num [CPP_BASIC_EXEMPTION]) hx

lemma t2B_le {x : ℚ} (hx : 0 ≤ x) : (splitCPPBases x).2 ≤ x := by
  rw [split_snd]
  exact clampBand_le _ _ (by norm_num [CPP_YMPE]) hx

lemma rate_T1_BASE_val : CPP_T1_BASE_RATE = 495 / 10000 := by
  norm_num [CPP_T1_BASE_RATE]

lemma rate_T1_ENH_val : CPP_T1_ENH_RATE = 1 / 100 := by
  norm_num [CPP_T1_ENH_RATE]

lemma rate_T2_val : CPP_T2_RATE = 4 / 100 := by
  norm_num [CPP_T2_RATE]

lemma fed_bpa_rate_val : FED_BPA_RATE = 15 / 100 := by
  norm_num [FED_BPA_RATE]

lemma bc_bpa_rate_val : BC_BPA_RATE = 506 / 10000 := by
  norm_num [BC_BPA_RATE]

lemma cpp_personalDeduction (g : ℚ) :
    (cppForEmployeeSalary g).personalDeduction =
      (splitCPPBases g).1 * CPP_T1_ENH_RATE + (splitCPPBases g).2 * CPP_T2_RATE := rfl

lemma cpp_employeePaid (g : ℚ) :
    (cppForEmployeeSalary g).employeePaid =
      (splitCPPBases g).1 * CPP_T1_BASE_RATE + (splitCPPBases g).1 * CPP_T1_ENH_RATE +
        (splitCPPBases g).2 * CPP_T2_RATE := rfl

lemma cpp_extraFedCredit (g : ℚ) :
    (cppForEmployeeSalary g).extraFedCredit =
      (splitCPPBases g).1 * CPP_T1_BASE_RATE * FED_BPA_RATE := rfl

lemma cpp_extraBcCredit (g : ℚ) :
    (cppForEmployeeSalary g).extraBcCredit =
      (splitCPPBases g).1 * CPP_T1_BASE_RATE * BC_BPA_RATE := rfl

/-- Personally deductible CPP of the salary scenario as a standalone
function of gross salary. -/
def pdOf (g : ℚ) : ℚ := (cppForEmployeeSalary g).personalDeduction

lemma pdOf_nonneg (g : ℚ) : 0 ≤ pdOf g := by
  have h1 := t1B_nonneg g
  have h2 := t2B_nonneg g
  simp only [pdOf, cpp_personalDeduction, rate_T1_ENH_val, rate_T2_val]
  nlinarith

lemma pdOf_mono {a b : ℚ} (h : a ≤ b) : pdOf a ≤ pdOf b := by
  have h1 := t1B_mono h
  have h2 := t2B_mono h
  simp only [pdOf, cpp_personalDeduction, rate_T1_ENH_val, rate_T2_val]
  nlinarith

lemma pdOf_lip {a b : ℚ} (h : a ≤ b) : pdOf b - pdOf a ≤ (5 / 100) * (b - a) := by
  have h1 := t1B_lip h
  have h2 := t2B_lip h
  have h3 := t1B_mono h
  have h4 := t2B_mono h
  simp only [pdOf, cpp_personalDeduction, rate_T1_ENH_val, rate_T2_val]
  nlinarith

lemma pdOf_le {x : ℚ} (hx : 0 ≤ x) : pdOf x ≤ (5 / 100) * x := by
  have h1 := t1B_le hx
  have h2 := t2B_le hx
  have h3 := t1B_nonneg x
  have h4 := t2B_nonneg x
  simp only [pdOf, cpp_personalDeduction, rate_T1_ENH_val, rate_T2_val]
  nlinarith

/-- Employee CPP cash of the salary scenario as a standalone function. -/
def eeOf (g : ℚ) : ℚ := (cppForEmployeeSalary g).employeePaid

lemma eeOf_nonneg (g : ℚ) : 0 ≤ eeOf g := by
  have h1 := t1B_nonneg g
  have h2 := t2B_nonneg g
  simp only [eeOf, cpp_employeePaid, rate_T1_BASE_val, rate_T1_ENH_val, rate_T2_val]
  nlinarith

lemma eeOf_mono {a b : ℚ} (h : a ≤ b) : eeOf a ≤ eeOf b := by
  have h1 := t1B_mono h
  have h2 := t2B_mono h
  simp only [eeOf, cpp_employeePaid, rate_T1_BASE_val, rate_T1_ENH_val, rate_T2_val]
  nlinarith

lemma eeOf_lip {a b : ℚ} (h : a ≤ b) : eeOf b - eeOf a ≤ (995 / 10000) * (b - a) := by
  have h1 := t1B_lip h
  have h2 := t2B_lip h
  have h3 := t1B_mono h
  have h4 := t2B_mono h
  simp only [eeOf, cpp_employeePaid, rate_T1_BASE_val, rate_T1_ENH_val, rate_T2_val]
  nlinarith

lemma eeOf_le {x : ℚ} (hx : 0 ≤ x) : eeOf x ≤ (995 / 10000) * x := by
  have h1 := t1B_le hx
  have h2 := t2B_le hx
  have h3 := t1B_nonneg x
  have h4 := t2B_nonneg x
  simp only [eeOf, cpp_employeePaid, rate_T1_BASE_val, rate_T1_ENH_val, rate_T2_val]
  nlinarith

end Salary

namespace Salary

/-- Taxable income of the salary scenario as a standalone function. -/
def taxableOf (g : ℚ) : ℚ := max 0 (g - (cppForEmployeeSalary g).personalDeduction)

/-- Combined federal credits of the salary scenario. -/
def fedCredOf (g : ℚ) : ℚ := FED_BPA * FED_BPA_RATE + (cppForEmployeeSalary g).extraFedCredit

/-- Combined BC credits of the salary scenario. -/
def bcCredOf (g : ℚ) : ℚ := BC_BPA * BC_BPA_RATE + (cppForEmployeeSalary g).extraBcCredit

/-- Net federal tax of the salary scenario. -/
def fedNetOf (g : ℚ) : ℚ :=
  applyCredits (progressiveTax (taxableOf g) FED_BRACKETS) (fedCredOf g)

/-- Net BC tax of the salary scenario. -/
def bcNetOf (g : ℚ) : ℚ :=
  applyCredits (progressiveTax (taxableOf g) BC_BRACKETS) (bcCredOf g)

lemma netFromGross_net (g : ℚ) :
    (netFromGross g).net = g - (fedNetOf g + bcNetOf g) - eeOf g := rfl

lemma taxableOf_eq (g : ℚ) : taxableOf g = max 0 (g - pdOf g) := rfl

lemma taxableOf_nonneg (g : ℚ) : 0 ≤ taxableOf g := max0_nonneg _

lemma taxableOf_mono {a b : ℚ} (h : a ≤ b) : taxableOf a ≤ taxableOf b := by
  rw [taxableOf_eq, taxableOf_eq]
  have h1 := pdOf_lip h
  exact max0_mono (by linarith)

lemma taxableOf_lip {a b : ℚ} (h : a ≤ b) : taxableOf b - taxableOf a ≤ b - a := by
  rw [taxableOf_eq, taxableOf_eq]
  have h1 := pdOf_mono h
  have h2 := max0_sub_le (a := a - pdOf a) (b := b - pdOf b) (by linarith [pdOf_lip h])
  linarith

lemma taxableOf_le {x : ℚ} (hx : 0 ≤ x) : taxableOf x ≤ x := by
  rw [taxableOf_eq]
  exact max_le hx (by linarith [pdOf_nonneg x])

lemma taxableOf_pos_eq {x : ℚ} (hx : 0 ≤ x) : taxableOf x = x - pdOf x := by
  rw [taxableOf_eq]
  have h1 := pdOf_le hx
  exact max_eq_right (by linarith)

lemma taxableOf_lower {a b : ℚ} (ha : 0 ≤ a) (h : a ≤ b) :
    (95 / 100) * (b - a) ≤ taxableOf b - taxableOf a := by
  rw [taxableOf_pos_eq ha, taxableOf_pos_eq (le_trans ha h)]
  have h1 := pdOf_lip h
  linarith

lemma fedCredOf_nonneg (g : ℚ) : 0 ≤ fedCredOf g := by
  have h1 := t1B_nonneg g
  simp only [fedCredOf, cpp_extraFedCredit, rate_T1_BASE_val, fed_bpa_rate_val, FED_BPA]
  nlinarith

lemma bcCredOf_nonneg (g : ℚ) : 0 ≤ bcCredOf g := by
  have h1 := t1B_nonneg g
  simp only [bcCredOf, cpp_extraBcCredit, rate_T1_BASE_val, bc_bpa_rate_val, BC_BPA]
  nlinarith

lemma fedCredOf_mono {a b : ℚ} (h : a ≤ b) : fedCredOf a ≤ fedCredOf b := by
  have h1 := t1B_mono h
  simp only [fedCredOf, cpp_extraFedCredit, rate_T1_BASE_val, fed_bpa_rate_val]
  nlinarith

lemma bcCredOf_mono {a b : ℚ} (h : a ≤ b) : bcCredOf a ≤ bcCredOf b := by
  have h1 := t1B_mono h
  simp only [bcCredOf, cpp_extraBcCredit, rate_T1_BASE_val, bc_bpa_rate_val]
  nlinarith

lemma fedCredOf_lip {a b : ℚ} (h : a ≤ b) :
    fedCredOf b - fedCredOf a ≤ (495 / 10000) * (15 / 100) * (b - a) := by
  have h1 := t1B_lip h
  have h2 := t1B_mono h
  simp only [fedCredOf, cpp_extraFedCredit, rate_T1_BASE_val, fed_bpa_rate_val]
  nlinarith

lemma bcCredOf_lip {a b : ℚ} (h : a ≤ b) :
    bcCredOf b - bcCredOf a ≤ (495 / 10000) * (506 / 10000) * (b - a) := by
  have h1 := t1B_lip h
  have h2 := t1B_mono h
  simp only [bcCredOf, cpp_extraBcCredit, rate_T1_BASE_val, bc_bpa_rate_val]
  nlinarith

lemma fedNetOf_eq (g : ℚ) :
    fedNetOf g = max 0 (progressiveTax (taxableOf g) FED_BRACKETS - fedCredOf g) := by
  simp only [fedNetOf, applyCredits]
  rw [max_eq_right (fedCredOf_nonneg g)]

lemma bcNetOf_eq (g : ℚ) :
    bcNetOf g = max 0 (progressiveTax (taxableOf g) BC_BRACKETS - bcCredOf g) := by
  simp only [bcNetOf, applyCredits]
  rw [max_eq_right (bcCredOf_nonneg g)]

lemma fedNetOf_nonneg (g : ℚ) : 0 ≤ fedNetOf g := by
  rw [fedNetOf_eq]; exact max0_nonneg _

lemma bcNetOf_nonneg (g : ℚ) : 0 ≤ bcNetOf g := by
  rw [bcNetOf_eq]; exact max0_nonneg _

lemma fedNetOf_mono {a b : ℚ} (ha : 0 ≤ a) (h : a ≤ b) : fedNetOf a ≤ fedNetOf b := by
  rw [fedNetOf_eq, fedNetOf_eq]
  apply max0_mono
  have hlow := progressiveTax_sub_ge fed_wf fed_rates (by norm_num)
    (taxableOf_nonneg a) (taxableOf_mono h)
  have htx := taxableOf_lower ha h
  have hcred := fedCredOf_lip h
  linarith

lemma bcNetOf_mono {a b : ℚ} (ha : 0 ≤ a) (h : a ≤ b) : bcNetOf a ≤ bcNetOf b := by
  rw [bcNetOf_eq, bcNetOf_eq]
  apply max0_mono
  have hlow := progressiveTax_sub_ge bc_wf bc_rates (by norm_num)
    (taxableOf_nonneg a) (taxableOf_mono h)
  have htx := taxableOf_lower ha h
  have hcred := bcCredOf_lip h
  linarith

lemma fedNetOf_lip {a b : ℚ} (ha : 0 ≤ a) (h : a ≤ b) :
    fedNetOf b - fedNetOf a ≤ (33 / 100) * (b - a) := by
  rw [fedNetOf_eq, fedNetOf_eq]
  have hup := progressiveTax_sub_le fed_wf fed_rates (by norm_num) (taxableOf_mono h)
  have htx := taxableOf_lip h
  have hcredm := fedCredOf_mono h
  have hFle : progressiveTax (taxableOf b) FED_BRACKETS - fedCredOf b -
      (progressiveTax (taxableOf a) FED_BRACKETS - fedCredOf a) ≤ (33 / 100) * (b - a) := by
    nlinarith [taxableOf_mono h]
  have hFmono : progressiveTax (taxableOf a) FED_BRACKETS - fedCredOf a ≤
      progressiveTax (taxableOf b) FED_BRACKETS - fedCredOf b := by
    have hlow := progressiveTax_sub_ge fed_wf fed_rates (by norm_num)
      (taxableOf_nonneg a) (taxableOf_mono h)
    have htxl := taxableOf_lower ha h
    have hcred := fedCredOf_lip h
    linarith
  have := max0_sub_le hFmono
  linarith

lemma bcNetOf_lip {a b : ℚ} (ha : 0 ≤ a) (h : a ≤ b) :
    bcNetOf b - bcNetOf a ≤ (2050 / 10000) * (b - a) := by
  rw [bcNetOf_eq, bcNetOf_eq]
  have hup := progressiveTax_sub_le bc_wf bc_rates (by norm_num) (taxableOf_mono h)
  have htx := taxableOf_lip h
  have hcredm := bcCredOf_mono h
  have hFmono : progressiveTax (taxableOf a) BC_BRACKETS - bcCredOf a ≤
      progressiveTax (taxableOf b) BC_BRACKETS - bcCredOf b := by
    have hlow := progressiveTax_sub_ge bc_wf bc_rates (by norm_num)
      (taxableOf_nonneg a) (taxableOf_mono h)
    have htxl := taxableOf_lower ha h
    have hcred := bcCredOf_lip h
    linarith
  have := max0_sub_le hFmono
  nlinarith [taxableOf_mono h]

lemma fedNetOf_le {x : ℚ} (hx : 0 ≤ x) : fedNetOf x ≤ (33 / 100) * x := by
  rw [fedNetOf_eq]
  have h0 := progressiveTax_nonneg (taxableOf x) fed_wf fed_rates0
  have hle := progressiveTax_le_mul (t := taxableOf x) fed_wf fed_rates0 (by norm_num)
    (taxableOf_nonneg x)
  have htx := taxableOf_le hx
  have hcred := fedCredOf_nonneg x
  have h1 : progressiveTax (taxableOf x) FED_BRACKETS - fedCredOf x ≤
      progressiveTax (taxableOf x) FED_BRACKETS := by linarith
  have h2 := max0_mono h1
  rw [max_eq_right h0] at h2
  nlinarith

lemma bcNetOf_le {x : ℚ} (hx : 0 ≤ x) : bcNetOf x ≤ (2050 / 10000) * x := by
  rw [bcNetOf_eq]
  have h0 := progressiveTax_nonneg (taxableOf x) bc_wf bc_rates0
  have hle := progressiveTax_le_mul (t := taxableOf x) bc_wf bc_rates0 (by norm_num)
    (taxableOf_nonneg x)
  have htx := taxableOf_le hx
  have hcred := bcCredOf_nonneg x
  have h1 : progressiveTax (taxableOf x) BC_BRACKETS - bcCredOf x ≤
      progressiveTax (taxableOf x) BC_BRACKETS := by linarith
  have h2 := max0_mono h1
  rw [max_eq_right h0] at h2
  nlinarith

end Salary

namespace Salary

lemma net_le_self {x : ℚ} (_hx : 0 ≤ x) : (netFromGross x).net ≤ x := by
  rw [netFromGross_net]
  have h1 := fedNetOf_nonneg x
  have h2 := bcNetOf_nonneg x
  have h3 := eeOf_nonneg x
  linarith

lemma net_nonneg {x : ℚ} (hx : 0 ≤ x) : 0 ≤ (netFromGross x).net := by
  rw [netFromGross_net]
  have h1 := fedNetOf_le hx
  have h2 := bcNetOf_le hx
  have h3 := eeOf_le hx
  linarith

lemma net_mono {a b : ℚ} (ha : 0 ≤ a) (h : a ≤ b) :
    (netFromGross a).net ≤ (netFromGross b).net := by
  rw [netFromGross_net, netFromGross_net]
  have h1 := fedNetOf_lip ha h
  have h2 := bcNetOf_lip ha h
  have h3 := eeOf_lip h
  linarith

lemma net_gap {a b : ℚ} (ha : 0 ≤ a) (h : a ≤ b) :
    (netFromGross b).net - (netFromGross a).net ≤ b - a := by
  rw [netFromGross_net, netFromGross_net]
  have h1 := fedNetOf_mono ha h
  have h2 := bcNetOf_mono ha h
  have h3 := eeOf_mono h
  linarith

/-- Accuracy of the bisection loop: when the interval brackets the target by
net value, the last midpoint is an interval endpoint, and the interval is
narrow enough that the step-size test must fire within the fuel budget,
every exit of the loop lands within the 0.01 tolerance of the target. -/
lemma solveLoop_close (t : ℚ) : ∀ (fuel : Nat) (low high lastMid : ℚ),
    0 ≤ low → low ≤ high →
    (netFromGross low).net ≤ t → t ≤ (netFromGross high).net →
    (lastMid = low ∨ lastMid = high) →
    high - low ≤ (2 ^ fuel : ℚ) * (1 / 100) →
    |(netFromGross (solveLoop t fuel low high lastMid)).net - t| ≤ 1 / 100 := by
  intro fuel
  induction fuel with
  | zero =>
    intro low high lastMid h0 hlh hnl hnh hlm hw
    rw [pow_zero, one_mul] at hw
    have hgap := net_gap h0 hlh
    simp only [solveLoop]
    rcases hlm with h | h <;> subst h
    · exact abs_le.mpr ⟨by linarith, by linarith⟩
    · exact abs_le.mpr ⟨by linarith, by linarith⟩
  | succ n ih =>
    intro low high lastMid h0 hlh hnl hnh hlm hw
    have h001 : (0.01 : ℚ) = 1 / 100 := by norm_num
    have hmid0 : 0 ≤ (low + high) / 2 := by linarith
    have hlm' : low ≤ (low + high) / 2 := by linarith
    have hmh : (low + high) / 2 ≤ high := by linarith
    have hgaplow := net_gap h0 hlm'
    have hgaphigh := net_gap hmid0 hmh
    have hw' : high - low ≤ (2 ^ (n + 1) : ℚ) * (1 / 100) := hw
    have hpow : (2 ^ (n + 1) : ℚ) = 2 * 2 ^ n := by ring
    simp only [solveLoop]
    split_ifs with h1 h2
    · rcases h1 with h | h
      · rw [h001] at h
        exact h
      · rw [h001] at h
        have hd : |(low + high) / 2 - lastMid| = (high - low) / 2 := by
          rcases hlm with hl | hl <;> subst hl
          · rw [abs_of_nonneg (by linarith)]
            ring
          · rw [abs_of_nonpos (by linarith)]
            ring
        rw [hd] at h
        exact abs_le.mpr ⟨by linarith, by linarith⟩
    · exact ih ((low + high) / 2) high ((low + high) / 2) hmid0 hmh (le_of_lt h2) hnh
        (Or.inl rfl) (by rw [hpow] at hw'; linarith)
    · push_neg at h2
      exact ih low ((low + high) / 2) ((low + high) / 2) h0 hlm' hnl h2
        (Or.inr rfl) (by rw [hpow] at hw'; linarith)

end Salary

/-! Claim theorems C4. -/

/-- C4 counterexample: at the target 10 to the power 30, a gross salary
attaining the target exactly does exist inside the bracketed search range
(the doubling phase brackets the root), yet solveGrossForNet exhausts its
100 iterations before the interval collapses and returns a gross salary
whose net misses the target by more than the 0.01 tolerance. -/
theorem solveGrossForNet_misses_huge_target :
    (∃ x, max 0 ((10 : ℚ) ^ 30) ≤ x ∧ x ≤ Salary.highAfterDoubling ((10 : ℚ) ^ 30) ∧
      (Salary.netFromGross x).net = (10 : ℚ) ^ 30) ∧
    ¬ |(Salary.netFromGross (Salary.solveGrossForNet ((10 : ℚ) ^ 30))).net -
        (10 : ℚ) ^ 30| ≤ 1 / 100 :=
  ⟨⟨49999999999999999999999997677332637 / 23250,
    of_decide_eq_true (by with_unfolding_all rfl),
    of_decide_eq_true (by with_unfolding_all rfl),
    by with_unfolding_all rfl⟩,
   of_decide_eq_true (by with_unfolding_all rfl)⟩

/-- C4 (amended): whenever some gross salary inside the bracketed search
range [max(0, target), high after the doubling phase] attains the target
net exactly, and the bracketed interval is no wider than 2 to the power 100
hundredths (so that the bisection interval collapses below tolerance within
the 100-iteration budget; this covers every target below about 10 to the
power 27), solveGrossForNet returns a gross salary whose net is within the
absolute tolerance 0.01 of the target. -/
theorem solveGrossForNet_hits_target (t : ℚ)
    (hreach : ∃ x, max 0 t ≤ x ∧ x ≤ Salary.highAfterDoubling t ∧
      (Salary.netFromGross x).net = t)
    (hwidth : Salary.highAfterDoubling t - max 0 t ≤ (2 ^ 100 : ℚ) * (1 / 100)) :
    |(Salary.netFromGross (Salary.solveGrossForNet t)).net - t| ≤ 1 / 100 := by
  obtain ⟨x, hx1, hx2, hx3⟩ := hreach
  have hx0 : 0 ≤ x := le_trans (le_max_left 0 t) hx1
  have ht0 : 0 ≤ t := by rw [← hx3]; exact Salary.net_nonneg hx0
  have hlow_eq : max 0 t = t := max_eq_right ht0
  have hnetlow : (Salary.netFromGross (max 0 t)).net ≤ t := by
    rw [hlow_eq]; exact Salary.net_le_self ht0
  have hnethigh : t ≤ (Salary.netFromGross (Salary.highAfterDoubling t)).net := by
    have h := Salary.net_mono hx0 hx2
    rw [hx3] at h
    exact h
  have hlh : max 0 t ≤ Salary.highAfterDoubling t := le_trans hx1 hx2
  exact Salary.solveLoop_close t 100 (max 0 t) (Salary.highAfterDoubling t)
    (Salary.highAfterDoubling t) (max0_nonneg t) hlh hnetlow hnethigh (Or.inr rfl) hwidth

/-- Witness for the amended C4 at target 100000: the explicit gross salary
4095402537 / 29650 attains the target exactly inside the bracketed range,
the width hypothesis holds, and the solved gross salary lands within
tolerance. -/
theorem solveGrossForNet_hits_target_witness :
    (∃ x, max 0 (100000 : ℚ) ≤ x ∧ x ≤ Salary.highAfterDoubling 100000 ∧
      (Salary.netFromGross x).net = 100000) ∧
    Salary.highAfterDoubling 100000 - max 0 (100000 : ℚ) ≤ (2 ^ 100 : ℚ) * (1 / 100) ∧
    |(Salary.netFromGross (Salary.solveGrossForNet 100000)).net - 100000| ≤ 1 / 100 := by
  have hex : ∃ x, max 0 (100000 : ℚ) ≤ x ∧ x ≤ Salary.highAfterDoubling 100000 ∧
      (Salary.netFromGross x).net = 100000 :=
    ⟨4095402537 / 29650,
     of_decide_eq_true (by with_unfolding_all rfl),
     of_decide_eq_true (by with_unfolding_all rfl),
     by with_unfolding_all rfl⟩
  have hw : Salary.highAfterDoubling 100000 - max 0 (100000 : ℚ) ≤
      (2 ^ 100 : ℚ) * (1 / 100) := of_decide_eq_true (by with_unfolding_all rfl)
  exact ⟨hex, hw, solveGrossForNet_hits_target 100000 hex hw⟩

end IncorpCalc
